import Mathlib

/-!
Shallow embedding of the operator lowering module `reshape_layers.py` of the
onnx2keras repository, together with proofs about the claims of its natural
language specification.

Modelling conventions.
* A concrete (numpy) array is `NArr`: row major flat data plus a shape.
  Entries are `Option Int`; the entry `none` stands for the Python value
  `None` held inside an object dtype array (shape arrays produced by the
  shape lowering contain such entries).  Floating point payloads are outside
  the scope of the verified claims, so the element domain is the integers.
* A symbolic (Keras / TensorFlow) tensor is `KTensor`: its static shape (a
  list of optional dimensions, `none` meaning statically unknown) together
  with the expression `KExpr` describing the emitted graph node.
* The Environment (the `layers` dict of the source) is an association list
  from node identifiers to `Value`s; every source routine mutates `layers`
  only through `layers[node_name] = ...`, which the embedding renders as a
  single final `Env.insert` of the computed value (`runLowering`).
* Python exceptions are the `ConvError` error monad; a routine that raises
  returns `.error e` and produces no updated Environment.
* The helper module `utils.py` of the repository is not part of the given
  sources; its three functions are modelled from the specification and are
  marked `Modelled from the spec:` below.
-/

set_option linter.unusedVariables false

namespace O2K

/-- The Python exception kinds raised by the lowering routines. -/
inductive ConvError where
  | keyError
  | indexError
  | typeError
  | valueError
  | attributeError
  | notImplementedErr
  | tfError
  | genericError
deriving Repr, DecidableEq

/-- A concrete numpy array: shape together with row major flat data.
An entry `none` models the Python value `None` stored in an object dtype
array.  `obj` records whether the array has object dtype. -/
structure NArr where
  shape : List Nat
  data : List (Option Int)
  obj : Bool
deriving Repr, DecidableEq

/-- Product of a list of dimensions. -/
def natProd (l : List Nat) : Nat := l.foldl (fun a b => a * b) 1

/-- Row major strides of a shape. -/
def strides : List Nat → List Nat
  | [] => []
  | _ :: t => natProd t :: strides t

/-- Flat position of a multi index in a row major array of the given shape. -/
def flatIdx (shape idx : List Nat) : Nat :=
  (List.zipWith (fun i s => i * s) idx (strides shape)).foldl (fun a b => a + b) 0

/-- All multi indices of a shape, enumerated in row major order. -/
def allIdx : List Nat → List (List Nat)
  | [] => [[]]
  | d :: t => ((List.range d).map (fun i => (allIdx t).map (fun idx => i :: idx))).foldr
      (fun a b => a ++ b) []

/-- Entry of an array at a multi index (defaulting to `none` out of range). -/
def NArr.at (a : NArr) (idx : List Nat) : Option Int :=
  a.data.getD (flatIdx a.shape idx) none

/-- Build an array of a given shape from an entry function. -/
def NArr.build (shape : List Nat) (obj : Bool) (f : List Nat → Option Int) : NArr :=
  ⟨shape, (allIdx shape).map f, obj⟩

/-- `np.array` over a plain 1-D Python list: object dtype exactly when the
list holds a `None`. -/
def npArrayOf (l : List (Option Int)) : NArr :=
  ⟨[l.length], l, l.any (fun x => x.isNone)⟩

/-- Conversion of object entries to 32 bit integers (`np.int32(...)`);
a `None` entry raises `TypeError`. -/
def toInt32 : List (Option Int) → Except ConvError (List Int)
  | [] => .ok []
  | some i :: t => do
      let r ← toInt32 t
      .ok (i :: r)
  | none :: _ => .error .typeError

/-- Elementwise numpy equality between object entries: `None == None` is
true, `None == k` is false, integers compare as usual. -/
def eqOpt (a b : Option Int) : Bool :=
  match a, b with
  | none, none => true
  | some x, some y => x == y
  | _, _ => false

/-- `np.argmin` over a boolean array: index of the first `false`, and 0 when
every entry is `true` (all entries minimal). Unused on empty input. -/
def argminBool (l : List Bool) : Nat :=
  let i := l.findIdx (fun b => !b)
  if i = l.length then 0 else i

/-- `np.argmax` over a boolean array: index of the first `true`, and 0 when
every entry is `false`. -/
def argmaxBool (l : List Bool) : Nat :=
  let i := l.findIdx (fun b => b)
  if i = l.length then 0 else i

/-- Check that `perm` is a permutation of `0, ..., r-1` (what `np.transpose`
and `tf.transpose` demand of their axes argument). -/
def permOK (perm : List Nat) (r : Nat) : Bool :=
  (perm.length == r) && perm.all (fun j => decide (j < r)) &&
    (List.range r).all (fun j => perm.any (fun p => p == j))

/-- The dimension set check of the Keras `Permute` layer: the permuted
positions must be exactly the set `1, ..., r-1` (the batch axis excluded)
and the layer demands an input of rank `length + 1`. -/
def kerasPermDimsOK (dims : List Nat) (r : Nat) : Bool :=
  (dims.length + 1 == r) && dims.all (fun j => decide (1 ≤ j) && decide (j < r)) &&
    (List.range r).all (fun j => (j == 0) || dims.any (fun p => p == j))

/-- Graph expressions: one constructor per target graph primitive emitted by
the lowering routines. -/
inductive KExpr where
  /-- A tensor already bound in the target graph (for example a graph input). -/
  | source (name : String)
  /-- A constant array materialized as a graph tensor. -/
  | constE (a : NArr)
  /-- The Keras `Permute` layer over the non batch axes. -/
  | permute (dims : List Nat) (x : KExpr)
  /-- A raw all axis `tf.transpose`. -/
  | tfTransposeE (perm : List Nat) (x : KExpr)
  /-- The Keras `Flatten` layer. -/
  | flattenE (x : KExpr)
  /-- The Keras `Reshape` layer (batch preserving, target without batch axis). -/
  | reshapeE (target : List Int) (x : KExpr)
  /-- A `tf.reshape` with a fully explicit static target. -/
  | tfReshapeE (target : List Int) (x : KExpr)
  /-- The dynamic reshape of the mid axes branch: `tf.reshape` whose target is
  `[*tf.shape(x)[:fm], -1, *tf.shape(x)[eim:]]` read from the live shape. -/
  | dynReshapeE (fm eim : Nat) (x : KExpr)
  /-- The `Lambda` layer performing `tf.transpose(x, [0, 3, 1, 2])`. -/
  | lambdaCHW (x : KExpr)
  /-- `tf.gather` along an axis; the indices are either a symbolic tensor or a
  plain list extracted from a constant array. -/
  | gatherE (x : KExpr) (symIdx : Option KExpr) (constIdx : List (Option Int)) (axis : Int)
  /-- The Keras `Embedding` layer seeded with a constant table. -/
  | embeddingE (table : NArr) (symIdx : Option KExpr) (constIdx : List (Option Int))
  /-- Concatenation; `viaKeras` distinguishes `keras.layers.concatenate` from
  the lower level `tf.concat`. -/
  | concatE (xs : List KExpr) (axis : Int) (viaKeras : Bool)
  /-- `tf.expand_dims`. -/
  | expandDimsE (x : KExpr) (axis : Int)
  /-- `tf.squeeze`. -/
  | squeezeE (x : KExpr) (axis : Option Int)
  /-- The generic multi axis slicing primitive (`SlicingOpLambda`). -/
  | sliceE (x : KExpr) (starts stops steps : List (Option Int))
  /-- `tf.image.resize` to explicit spatial sizes. -/
  | resizeE (x : KExpr) (h w : Int) (method : String)
  /-- Broadcasting multiply with a ones tensor (the expand lowering). -/
  | mulOnesE (x : KExpr) (dims : List Int)
  /-- `tf.tile`; `reps = none` when the multiples are a symbolic tensor. -/
  | tileE (x : KExpr) (reps : Option (List Int))
deriving Repr

/-- Is the expression the Keras `Flatten` node emitted by the
flatten degenerate branch of the reshape lowering? -/
def KExpr.isFlattenB : KExpr → Bool
  | .flattenE _ => true
  | _ => false

/-- A symbolic target graph tensor: static shape (`none` entries are the
dimensions unknown until run time) plus the emitted expression. -/
structure KTensor where
  shape : List (Option Int)
  expr : KExpr
deriving Repr

/-- A Value of the Environment: either a compile time numpy array or a
symbolic tensor bound to the target graph. -/
inductive Value where
  | constant (a : NArr)
  | symbolic (t : KTensor)
deriving Repr

/-- The Environment: mapping from node identifier to Value. -/
abbrev Env := List (String × Value)

/-- Lookup of a node identifier. -/
def Env.find : Env → String → Option Value
  | [], _ => none
  | (k, v) :: rest, key => if key = k then some v else Env.find rest key

/-- Writing the entry of a node (`layers[node_name] = value`). -/
def Env.insert (e : Env) (k : String) (v : Value) : Env := (k, v) :: e

theorem Env.find_insert (e : Env) (n k : String) (v : Value) :
    Env.find (Env.insert e n v) k = if k = n then some v else Env.find e k := by
  simp [Env.insert, Env.find]

/-- A source graph node as seen by a lowering routine: its ordered input
identifiers (the output identifier is passed separately). -/
structure Node where
  input : List String
deriving Repr

/-- Static node attributes read by the lowering routines.  A field holding
`none` models an absent key (reading it raises `KeyError`); presence tests
such as `is_embedding in params` read the corresponding flag. -/
structure Params where
  perm : Option (List Nat)
  axis : Option Int
  axes : Option (List Int)
  steps : Option (List Int)
  starts : Option (List Int)
  endsP : Option (List Int)
  change_ordering : Bool
  is_embedding : Bool
  mode : Option String
deriving Repr

/-- Attributes object with every key absent and both flags cleared. -/
def emptyParams : Params := ⟨none, none, none, none, none, none, false, false, none⟩

/-- `node.input[i]` (raises `IndexError` past the end). -/
def getIn (node : Node) (i : Nat) : Except ConvError String :=
  match node.input.get? i with
  | some s => .ok s
  | none => .error .indexError

/-- `layers[name]` (raises `KeyError` when absent). -/
def findV (env : Env) (name : String) : Except ConvError Value :=
  match Env.find env name with
  | some v => .ok v
  | none => .error .keyError

/-- Modelled from the spec: `is_numpy` of the missing helper module
`utils.py` — the runtime test whether a Value is a plain compile time array
rather than a framework tensor. -/
def is_numpy : Value → Bool
  | .constant _ => true
  | .symbolic _ => false

/-- Modelled from the spec: `ensure_tf_type` of the missing helper module
`utils.py` — materialize a Value as a target graph tensor; a compile time
array becomes a constant tensor whose static shape is the array shape, a
symbolic tensor is returned unchanged. -/
def ensureTf : Value → KTensor
  | .constant a => ⟨a.shape.map (fun d => some (Int.ofNat d)), .constE a⟩
  | .symbolic t => t

/-- Modelled from the spec: `ensure_numpy_type` of the missing helper module
`utils.py` — resolve a Value eagerly to a concrete array; a graph bound
symbolic tensor cannot be resolved and raises. -/
def ensureNp : Value → Except ConvError NArr
  | .constant a => .ok a
  | .symbolic _ => .error .typeError

/-- The static shape a Value exposes once materialized as a tensor
(`ensure_tf_type(value).shape`): the array shape for a constant, the static
tensor shape for a symbolic value. -/
def Value.tfShape (v : Value) : List (Option Int) := (ensureTf v).shape

/-- `len(value.shape)`. -/
def Value.rank : Value → Nat
  | .constant a => a.shape.length
  | .symbolic t => t.shape.length

/-! ### Host side (numpy) operations used by the constant fold paths -/

/-- The total builder behind `np.transpose(a, axes=perm)`: permuted shape,
entry at `idx` read from the source at the inversely permuted index. -/
def npTransposeArr (perm : List Nat) (a : NArr) : NArr :=
  let r := a.shape.length
  NArr.build (perm.map (fun j => a.shape.getD j 0)) a.obj
    (fun idx => a.at ((List.range r).map (fun j => idx.getD (perm.findIdx (fun p => p == j)) 0)))

/-- `np.transpose(a, axes=perm)`: the axes argument must be a permutation of
the array dimensions. -/
def npTranspose (perm : List Nat) (a : NArr) : Except ConvError NArr :=
  if permOK perm a.shape.length then .ok (npTransposeArr perm a) else .error .valueError

/-- Numpy fancy indexing along axis 0, `a[idx]`: each index entry selects a
subarray; a `None` entry or an out of range index raises. -/
def npTake0 (a idx : NArr) : Except ConvError NArr :=
  match a.shape with
  | [] => .error .indexError
  | d0 :: rest => do
      let chunk := natProd rest
      let picks ← idx.data.mapM (fun e =>
        match e with
        | some i =>
            if 0 ≤ i + d0 ∧ i < d0 then
              .ok (if i < 0 then (i + Int.ofNat d0).toNat else i.toNat)
            else .error .indexError
        | none => .error .indexError)
      let dat := (picks.map (fun j => (a.data.drop (j * chunk)).take chunk)).foldr
        (fun x y => x ++ y) []
      .ok ⟨idx.shape ++ rest, dat, a.obj⟩

/-- The dtype coercion after the constant gather: an object dtype result is
converted to `np.int32` when every entry is an integer; otherwise the
`TypeError` is swallowed and the object array kept. -/
def gatherCoerce (g : NArr) : NArr :=
  if g.obj then
    if g.data.all (fun e => e.isSome) then ⟨g.shape, g.data, false⟩ else g
  else g

/-- Normalize a possibly negative axis against a rank (Python style). -/
def normAxis (r : Nat) (ax : Int) : Except ConvError Nat :=
  if 0 ≤ ax ∧ ax < Int.ofNat r then .ok ax.toNat
  else if -(Int.ofNat r) ≤ ax ∧ ax < 0 then .ok (ax + Int.ofNat r).toNat
  else .error .valueError

/-- `np.concatenate(arrays, axis)`:  every input must have the same rank and
agree on every dimension except the concatenation axis. -/
def npConcat (arrs : List NArr) (axis : Int) : Except ConvError NArr :=
  match arrs with
  | [] => .error .valueError
  | a0 :: _ => do
      let r := a0.shape.length
      let ax ← normAxis r axis
      if arrs.all (fun a => a.shape.length == r &&
          (List.range r).all (fun j => (j == ax) || (a.shape.getD j 0 == a0.shape.getD j 0)))
      then
        let outer := natProd (a0.shape.take ax)
        let inner := natProd (a0.shape.drop (ax + 1))
        let dAx := arrs.foldl (fun s a => s + a.shape.getD ax 0) 0
        let dat := ((List.range outer).map (fun o =>
          (arrs.map (fun a =>
            ((a.data.drop (o * (a.shape.getD ax 0) * inner)).take ((a.shape.getD ax 0) * inner)))).foldr
            (fun x y => x ++ y) [])).foldr (fun x y => x ++ y) []
        .ok ⟨a0.shape.take ax ++ [dAx] ++ a0.shape.drop (ax + 1), dat, arrs.any (fun a => a.obj)⟩
      else .error .valueError

/-- Resolve an integer target shape against a total element count, the numpy
and TensorFlow reshape rule: at most one `-1` entry, inferred from the
element count; any other entry must be positive and the counts must agree. -/
def resolveReshape (total : Nat) (dims : List Int) : Except ConvError (List Nat) :=
  if dims.any (fun d => decide (d < -1) || (d == 0)) then .error .valueError
  else
    let wilds := (dims.filter (fun d => d == -1)).length
    let p := (dims.filter (fun d => !(d == -1))).foldl (fun a d => a * d.toNat) 1
    if wilds == 1 then
      if p ≠ 0 ∧ total % p = 0 then
        .ok (dims.map (fun d => if d == -1 then total / p else d.toNat))
      else .error .valueError
    else if wilds == 0 then
      if p = total then .ok (dims.map (fun d => d.toNat)) else .error .valueError
    else .error .valueError

/-- `np.reshape(a, dims)`: a pure reinterpretation of the data buffer. -/
def npReshape (a : NArr) (dims : List Int) : Except ConvError NArr := do
  let s ← resolveReshape a.data.length dims
  .ok ⟨s, a.data, a.obj⟩

/-- `np.expand_dims(a, axis)`: insert one axis of size 1. -/
def npExpandDims (a : NArr) (ax : Int) : Except ConvError NArr := do
  let r := a.shape.length
  let pos ← normAxis (r + 1) ax
  .ok ⟨a.shape.take pos ++ [1] ++ a.shape.drop pos, a.data, a.obj⟩

/-- The index set a Python slice `start:stop:step` selects from an axis of
length `L`, following the CPython normalization of out of range and negative
bounds. -/
def sliceIndices (L : Nat) (start stop step : Option Int) : Except ConvError (List Nat) :=
  let s := step.getD 1
  if s = 0 then .error .valueError
  else
    let norm : Int → Int → Int → Int := fun i lo hi =>
      let j := if i < 0 then i + Int.ofNat L else i
      if j < lo then lo else if hi < j then hi else j
    if 0 < s then
      let st := norm (start.getD 0) 0 (Int.ofNat L)
      let en := norm (stop.getD (Int.ofNat L)) 0 (Int.ofNat L)
      .ok ((List.range L).filterMap (fun k =>
        let i := st + s * Int.ofNat k
        if i < en then some i.toNat else none))
    else
      let st := norm (start.getD (Int.ofNat L - 1)) (-1) (Int.ofNat L - 1)
      let en := norm (stop.getD (-(Int.ofNat L) - 1)) (-1) (Int.ofNat L - 1)
      .ok ((List.range L).filterMap (fun k =>
        let i := st + s * Int.ofNat k
        if en < i ∧ 0 ≤ i then some i.toNat else none))

/-- Multi axis slicing of a concrete array given the per axis selected
indices. -/
def npSliceArr (a : NArr) (sel : List (List Nat)) : NArr :=
  NArr.build (sel.map (fun l => l.length)) a.obj
    (fun idx => a.at (List.zipWith (fun l i => l.getD i 0) sel idx))

/-! ### Target graph (Keras / TensorFlow) primitives -/

/-- The Keras `Permute` layer: validates that the dimension tuple is exactly
the non batch axis set and permutes the static shape accordingly. -/
def kerasPermuteT (dims : List Nat) (t : KTensor) : Except ConvError KTensor :=
  if kerasPermDimsOK dims t.shape.length then
    .ok ⟨t.shape.headD none :: dims.map (fun j => t.shape.getD j none), .permute dims t.expr⟩
  else .error .valueError

/-- `tf.transpose(x, perm)` over all axes. -/
def tfTransposeT (perm : List Nat) (t : KTensor) : Except ConvError KTensor :=
  if permOK perm t.shape.length then
    .ok ⟨perm.map (fun j => t.shape.getD j none), .tfTransposeE perm t.expr⟩
  else .error .tfError

/-- The Keras `Flatten` layer: batch axis kept, every other axis collapsed
(statically known only when all the collapsed dimensions are). -/
def flattenT (t : KTensor) : KTensor :=
  let rest := t.shape.drop 1
  let d := if rest.all (fun e => e.isSome) then
      some ((rest.map (fun e => (e.getD 0))).foldl (fun a b => a * b) 1)
    else none
  ⟨[t.shape.headD none, d], .flattenE t.expr⟩

/-- The Keras `Reshape` layer: target without the batch axis, which is
preserved; a single `-1` is inferred statically when the non batch element
count of the input is known. -/
def kerasReshapeT (target : List Int) (t : KTensor) : Except ConvError KTensor :=
  if target.any (fun d => decide (d < -1) || (d == 0)) then .error .valueError
  else if (target.filter (fun d => d == -1)).length ≥ 2 then .error .valueError
  else
    let rest := t.shape.drop 1
    let outShape : List (Option Int) :=
      if rest.all (fun e => e.isSome) then
        let total := ((rest.map (fun (e : Option Int) => e.getD 0)).foldl (fun a b => a * b) 1).toNat
        match resolveReshape total target with
        | .ok s => s.map (fun d => some (Int.ofNat d))
        | .error _ => target.map (fun d => if d == -1 then none else some d)
      else target.map (fun d => if d == -1 then none else some d)
    if rest.all (fun e => e.isSome) then
      match resolveReshape ((rest.map (fun (e : Option Int) => e.getD 0)).foldl (fun a b => a * b) 1).toNat target with
      | .ok _ => .ok ⟨t.shape.headD none :: outShape, .reshapeE target t.expr⟩
      | .error e => .error e
    else .ok ⟨t.shape.headD none :: outShape, .reshapeE target t.expr⟩

/-- `tf.reshape(x, target)` with a fully static integer target list. -/
def tfReshapeT (target : List Int) (t : KTensor) : Except ConvError KTensor :=
  if t.shape.all (fun e => e.isSome) then
    match resolveReshape ((t.shape.map (fun (e : Option Int) => e.getD 0)).foldl (fun a b => a * b) 1).toNat target with
    | .ok s => .ok ⟨s.map (fun d => some (Int.ofNat d)), .tfReshapeE target t.expr⟩
    | .error e => .error e
  else
    if target.any (fun d => decide (d < -1) || (d == 0)) then .error .valueError
    else if (target.filter (fun d => d == -1)).length ≥ 2 then .error .valueError
    else .ok ⟨target.map (fun d => if d == -1 then none else some d), .tfReshapeE target t.expr⟩

/-- `tf.expand_dims(x, axis)`. -/
def tfExpandDims (t : KTensor) (ax : Int) : Except ConvError KTensor := do
  let pos ← normAxis (t.shape.length + 1) ax
  .ok ⟨t.shape.take pos ++ [some 1] ++ t.shape.drop pos, .expandDimsE t.expr ax⟩

/-- `tf.squeeze(x, axis)`: with an explicit axis the dimension must be 1 or
statically unknown; without one every statically known size 1 dimension is
removed. -/
def tfSqueeze (t : KTensor) (axis : Option Int) : Except ConvError KTensor :=
  match axis with
  | none => .ok ⟨t.shape.filter (fun e => !(e == some 1)), .squeezeE t.expr none⟩
  | some a => do
      let pos ← normAxis t.shape.length a
      match t.shape.getD pos none with
      | some 1 => .ok ⟨t.shape.take pos ++ t.shape.drop (pos + 1), .squeezeE t.expr (some a)⟩
      | none => .ok ⟨t.shape.take pos ++ t.shape.drop (pos + 1), .squeezeE t.expr (some a)⟩
      | some _ => .error .tfError

/-- `tf.gather(x, indices, axis)`: the axis must name an existing axis; the
output splices the index shape in place of the gathered axis. -/
def tfGatherT (t : KTensor) (symIdx : Option KTensor) (constIdx : List (Option Int))
    (idxShape : List Nat) (axis : Int) : Except ConvError KTensor := do
  let pos ← normAxis t.shape.length axis
  match symIdx with
  | some it =>
      .ok ⟨t.shape.take pos ++ it.shape ++ t.shape.drop (pos + 1),
        .gatherE t.expr (some it.expr) [] axis⟩
  | none =>
      if constIdx.all (fun e => e.isSome) then
        .ok ⟨t.shape.take pos ++ idxShape.map (fun d => some (Int.ofNat d)) ++ t.shape.drop (pos + 1),
          .gatherE t.expr none constIdx axis⟩
      else .error .tfError

/-- Merging of two static dimensions for concatenation off the axis. -/
def mergeDim : Option Int → Option Int → Except ConvError (Option Int)
  | none, d => .ok d
  | d, none => .ok d
  | some a, some b => if a = b then .ok (some a) else .error .valueError

/-- Static shape of a concatenation of tensors along an axis. -/
def concatShape (ts : List KTensor) (axis : Int) : Except ConvError (List (Option Int)) :=
  match ts with
  | [] => .error .valueError
  | t0 :: _ => do
      let r := t0.shape.length
      let ax ← normAxis r axis
      if ts.all (fun t => t.shape.length == r) then
        let dAx : Option Int := if ts.all (fun t => (t.shape.getD ax none).isSome) then
            some (ts.foldl (fun s t => s + (t.shape.getD ax none).getD 0) 0)
          else none
        let offAxis ← (List.range r).mapM (fun j =>
          if j == ax then .ok dAx
          else ts.foldlM (fun d t => mergeDim d (t.shape.getD j none)) none)
        .ok offAxis
      else .error .valueError

/-- Broadcasting of two static shapes (right aligned), the TensorFlow rule
used by the expand lowering. -/
def broadcastShape (x y : List (Option Int)) : Except ConvError (List (Option Int)) :=
  let n := max x.length y.length
  let xp := List.replicate (n - x.length) (some (1 : Int)) ++ x
  let yp := List.replicate (n - y.length) (some (1 : Int)) ++ y
  (List.zip xp yp).mapM (fun p =>
    match p.1, p.2 with
    | some 1, d => .ok d
    | d, some 1 => .ok d
    | some a, some b => if a = b then .ok (some a) else .error .tfError
    | none, d => .ok d
    | d, none => .ok d)

/-! ### The lowering routines -/

/-- Warning surfaced when a transpose wants to move the batch axis. -/
def wPermBatch : String := "Cannot permute batch dimension. Result may be wrong."

/-- Warning surfaced when the batch moving transpose constant folds. -/
def wNumpyTranspose : String := "Transposing numpy array."

/-- Embeds `convert_transpose` (reshape_layers.py lines 12-35).  A
permutation keeping axis 0 lowers to the Keras `Permute` layer over the
remaining axes; one moving axis 0 logs a warning and proceeds, constant
folding via `np.transpose` on a numpy input and emitting a raw
`tf.transpose` otherwise. -/
def convert_transpose_val (node : Node) (params : Params) (env : Env) (kerasName : String) :
    Except ConvError (Value × List String) :=
  match getIn node 0 with
  | .error e => .error e
  | .ok inputName =>
    match params.perm with
    | none => .error .keyError
    | some perm =>
      match perm with
      | [] => .error .indexError
      | p0 :: _ =>
        match findV env inputName with
        | .error e => .error e
        | .ok v =>
          if p0 ≠ 0 then
            match v with
            | .constant a =>
                match npTranspose perm a with
                | .ok a2 => .ok (.constant a2, [wPermBatch, wNumpyTranspose])
                | .error e => .error e
            | .symbolic t =>
                match tfTransposeT perm t with
                | .ok t2 => .ok (.symbolic t2, [wPermBatch])
                | .error e => .error e
          else
            match kerasPermuteT (perm.drop 1) (ensureTf v) with
            | .ok t2 => .ok (.symbolic t2, [])
            | .error e => .error e

/-- Embeds `convert_shape` (lines 38-62): the input is materialized, its
static shape copied entry by entry (the loop of lines 55-60 keeps each known
dimension and writes `None` for an unknown one) and stored as a numpy
array. -/
def convert_shape_val (node : Node) (params : Params) (env : Env) (kerasName : String) :
    Except ConvError (Value × List String) :=
  match getIn node 0 with
  | .error e => .error e
  | .ok inputName =>
    match findV env inputName with
    | .error e => .error e
    | .ok v => .ok (.constant (npArrayOf (ensureTf v).shape), [])

/-- Embeds `convert_gather` (lines 65-119). -/
def convert_gather_val (node : Node) (params : Params) (env : Env) (kerasName : String) :
    Except ConvError (Value × List String) :=
  match getIn node 0 with
  | .error e => .error e
  | .ok in0 =>
  match getIn node 1 with
  | .error e => .error e
  | .ok in1 =>
  match findV env in0 with
  | .error e => .error e
  | .ok v0 =>
  match findV env in1 with
  | .error e => .error e
  | .ok v1 =>
  if is_numpy v0 && is_numpy v1 && !params.is_embedding then
    match params.axis with
    | none => .error .keyError
    | some ax =>
      if ax = 0 then
        match v0, v1 with
        | .constant a0, .constant a1 =>
            match npTake0 a0 a1 with
            | .ok g => .ok (.constant (gatherCoerce g), [])
            | .error e => .error e
        | _, _ => .error .typeError
      else if ax = 1 ∨ ax = 2 ∨ ax = 3 then
        -- Source lines 84-88 subscript the layers dict itself with a tuple
        -- holding a slice (`layers[:, node.input[0]]` and so on), which
        -- raises `TypeError: unhashable type` before any indexing happens.
        .error .typeError
      else
        -- line 90: axis values past 3 are an unsupported configuration
        .error .attributeError
  else
    let t0 := ensureTf v0
    if params.is_embedding then
      if t0.shape.length = 2 then
        match v0 with
        | .constant table =>
            match v1 with
            | .symbolic ti =>
                .ok (.symbolic ⟨ti.shape ++ [t0.shape.getD 1 none],
                  .embeddingE table (some ti.expr) []⟩, [])
            | .constant a1 =>
                if a1.data.all (fun e => e.isSome) then
                  .ok (.symbolic ⟨a1.shape.map (fun d => some (Int.ofNat d)) ++ [t0.shape.getD 1 none],
                    .embeddingE table none a1.data⟩, [])
                else .error .tfError
        | .symbolic _ =>
            -- the weights argument of the embedding layer needs concrete data
            .error .valueError
      else
        -- line 117: an embedding table must be 2-D
        .error .attributeError
    else
      match params.axis with
      | none => .error .keyError
      | some ax =>
        match v1 with
        | .symbolic ti =>
            match tfGatherT t0 (some ti) [] [] ax with
            | .ok t2 => .ok (.symbolic t2, [])
            | .error e => .error e
        | .constant a1 =>
            match tfGatherT t0 none a1.data a1.shape ax with
            | .ok t2 => .ok (.symbolic t2, [])
            | .error e => .error e

/-- Embeds `convert_concat` (lines 122-156). -/
def convert_concat_val (node : Node) (params : Params) (env : Env) (kerasName : String) :
    Except ConvError (Value × List String) :=
  match node.input.mapM (fun s => findV env s) with
  | .error e => .error e
  | .ok vs =>
    if vs.all is_numpy then
      match params.axis with
      | none => .error .keyError
      | some ax =>
        match npConcat (vs.filterMap (fun v =>
            match v with | .constant a => some a | .symbolic _ => none)) ax with
        | .ok a => .ok (.constant a, [])
        | .error e => .error e
    else
      if vs.length > 1 then
        match params.axis with
        | none => .error .keyError
        | some ax =>
          match concatShape (vs.map ensureTf) ax with
          | .error e => .error e
          | .ok s =>
            -- all inputs already Keras tensors: the native concatenate layer;
            -- otherwise the lower level tf.concat
            if vs.all (fun v => !is_numpy v) then
              .ok (.symbolic ⟨s, .concatE ((vs.map ensureTf).map (fun t => t.expr)) ax true⟩, [])
            else
              .ok (.symbolic ⟨s, .concatE ((vs.map ensureTf).map (fun t => t.expr)) ax false⟩, [])
      else
        match vs with
        | [v] => .ok (v, [])
        | _ => .error .valueError

/-- The `Lambda` layer of the reshape lowering: `tf.transpose(x, [0, 3, 1, 2])`
(demands a rank 4 input). -/
def lambdaCHWT (t : KTensor) : Except ConvError KTensor :=
  match t.shape with
  | [s0, s1, s2, s3] => .ok ⟨[s0, s3, s1, s2], .lambdaCHW t.expr⟩
  | _ => .error .tfError

/-- Embeds `convert_reshape` (lines 159-234). -/
def convert_reshape_val (node : Node) (params : Params) (env : Env) (kerasName : String) :
    Except ConvError (Value × List String) :=
  match getIn node 0 with
  | .error e => .error e
  | .ok in0 =>
  match getIn node 1 with
  | .error e => .error e
  | .ok in1 =>
  match findV env in0 with
  | .error e => .error e
  | .ok v0 =>
  match findV env in1 with
  | .error e => .error e
  | .ok v1 =>
  match v1 with
  | .symbolic _ =>
      -- line 234: a graph bound target shape cannot be reshaped to
      .error .attributeError
  | .constant arr1 =>
    if arr1.shape.length ≠ 1 then .error .valueError
    else
      let d1 := arr1.data
      let L := d1.length
      match v0 with
      | .constant a0 =>
          -- line 179: both arguments numpy, np.reshape(input_0, np.int32(input_1))
          match toInt32 d1 with
          | .error e => .error e
          | .ok dims =>
            match npReshape a0 dims with
            | .ok a2 => .ok (.constant a2, [])
            | .error e => .error e
      | .symbolic _ =>
        if params.change_ordering then
          -- lines 181-204
          let input0 := ensureTf v0
          if L = 0 then .error .indexError
          else
            match (if (d1.getD 0 (some 0)).isNone then
                     (if L ≤ 1 then (.error .indexError : Except ConvError Bool)
                      else .ok ((d1.getD 1 none) == some (-1)))
                   else .ok false) with
            | .error e => .error e
            | .ok chwBranch =>
              match (if chwBranch then lambdaCHWT input0 else .ok input0) with
              | .error e => .error e
              | .ok inner =>
                match toInt32 (d1.drop 1) with
                | .error e => .error e
                | .ok target =>
                  match kerasReshapeT target inner with
                  | .ok t2 => .ok (.symbolic t2, [])
                  | .error e => .error e
        else
          -- lines 206-232
          let input0 := ensureTf v0
          let s := input0.shape
          let r := s.length
          if L = 0 then .error .valueError
          else
            let cmp := List.zipWith eqOpt (s.take L) d1
            let fm := if r < L then 0 else argminBool cmp
            if d1.any (fun e => e.isNone) && s.any (fun e => e.isNone) &&
                decide (L < r) && ((d1.getD fm (some 0)) == some (-1)) then
              -- lines 212-217: locate the resynchronization point and fold the
              -- mid axes into one wildcard via a dynamic tf.reshape
              let endCmp := List.zipWith eqOpt (s.drop (r - L)) d1
              let em0 := argmaxBool endCmp
              let eim := if decide (fm < em0) && endCmp.getD em0 false then em0 + r - L
                else r + 1
              let outRank := min fm r + 1 + (r - min eim r)
              .ok (.symbolic ⟨List.replicate outRank none, .dynReshapeE fm eim input0.expr⟩, [])
            else
              match toInt32 (d1.drop 1) with
              | .error e => .error e
              | .ok target =>
                if target.length = 1 && (target.getD 0 0) == -1 then
                  -- lines 223-226: the flatten degenerate branch
                  .ok (.symbolic (flattenT input0), [])
                else
                  if r = 0 then .error .indexError
                  else if !(eqOpt (s.getD 0 none) (d1.getD 0 none)) then
                    -- lines 228-229: batch sizes disagree, keras Reshape does
                    -- not work, emit a full tf.reshape
                    match toInt32 d1 with
                    | .error e => .error e
                    | .ok full =>
                      match tfReshapeT full input0 with
                      | .ok t2 => .ok (.symbolic t2, [])
                      | .error e => .error e
                  else
                    -- lines 230-232: batch preserving keras Reshape
                    match kerasReshapeT target input0 with
                    | .ok t2 => .ok (.symbolic t2, [])
                    | .error e => .error e

/-- Reading an axes list out of a constant array value (iterated over /
measured by the unsqueeze lowering); an object entry holding `None` cannot
be used as an axis. -/
def arrToAxes (a : NArr) : Except ConvError (List Int) := toInt32 a.data

/-- Embeds `convert_unsqueeze` (lines 237-266).  With two inputs the axes
come from the Environment value of the second input (lines 250-252),
overriding the static attribute; any other input count differing from one
raises (line 254). -/
def convert_unsqueeze_val (node : Node) (params : Params) (env : Env) (kerasName : String) :
    Except ConvError (Value × List String) :=
  match ((if node.input.length ≠ 1 then
           if node.input.length = 2 then
             match getIn node 1 with
             | .error e => .error e
             | .ok in1 =>
               match findV env in1 with
               | .error e => .error e
               | .ok v1 =>
                 match v1 with
                 | .constant arr => arrToAxes arr
                 | .symbolic _ => .error .typeError
           else .error .attributeError
         else
           match params.axes with
           | some l => .ok l
           | none => .error .keyError) : Except ConvError (List Int)) with
  | .error e => .error e
  | .ok axes =>
    match getIn node 0 with
    | .error e => .error e
    | .ok in0 =>
      match findV env in0 with
      | .error e => .error e
      | .ok v0 =>
        match v0 with
        | .constant a =>
            -- lines 256-260: repeated np.expand_dims
            match axes.foldlM (fun acc ax => npExpandDims acc ax) a with
            | .ok a2 => .ok (.constant a2, [])
            | .error e => .error e
        | .symbolic t =>
            -- lines 263-266: a symbolic input takes exactly one axis
            if axes.length ≠ 1 then .error .attributeError
            else
              match tfExpandDims t (axes.getD 0 0) with
              | .ok t2 => .ok (.symbolic t2, [])
              | .error e => .error e

/-- Embeds `convert_flatten` (lines 269-292): exactly one input, a fixed
channel to leading axis `Permute((3,1,2))` and then the Keras `Flatten`. -/
def convert_flatten_val (node : Node) (params : Params) (env : Env) (kerasName : String) :
    Except ConvError (Value × List String) :=
  if node.input.length ≠ 1 then .error .attributeError
  else
    match getIn node 0 with
    | .error e => .error e
    | .ok in0 =>
      match findV env in0 with
      | .error e => .error e
      | .ok v =>
        match kerasPermuteT [3, 1, 2] (ensureTf v) with
        | .ok p => .ok (.symbolic (flattenT p), [])
        | .error e => .error e

/-- A per axis `start stop step` entry of the slice spec. -/
structure SliceTriple where
  start : Option Int
  stop : Option Int
  step : Option Int
deriving Repr, DecidableEq

/-- One entry of the slice spec loop (lines 328-336): for an axis named in
the (normalized) axes list, its `start stop step` triple, with an end value
at or above the sentinel 2147483647 normalized to an open ended stop; any
other axis receives the full range triple. -/
def sliceSpecAt (axesPos : List Int) (starts ends : List Int) (steps : List (Option Int))
    (axis : Nat) : Except ConvError SliceTriple :=
  if axesPos.any (fun x => x == Int.ofNat axis) then
    match starts.get? (axesPos.findIdx (fun x => x == Int.ofNat axis)),
          ends.get? (axesPos.findIdx (fun x => x == Int.ofNat axis)),
          steps.get? (axesPos.findIdx (fun x => x == Int.ofNat axis)) with
    | some st, some en, some sp =>
        .ok ⟨some st, if en < 2147483647 then some en else none, sp⟩
    | _, _, _ => .error .indexError
  else .ok ⟨none, none, none⟩

/-- The whole slice spec (the loop of lines 327-336) over every tensor
axis. -/
def buildSliceSpec (rank : Nat) (axesPos : List Int) (starts ends : List Int)
    (steps : List (Option Int)) : Except ConvError (List SliceTriple) :=
  (List.range rank).mapM (fun axis => sliceSpecAt axesPos starts ends steps axis)

/-- Embeds `convert_slice` (lines 295-346). -/
def convert_slice_val (node : Node) (params : Params) (env : Env) (kerasName : String) :
    Except ConvError (Value × List String) :=
  if params.change_ordering then .error .notImplementedErr
  else
    match ((match params.axes with
           | some axs =>
             -- lines 310-314: parameters from static attributes
             match params.starts, params.endsP with
             | some sts, some ens =>
                 let stps : List (Option Int) :=
                   match params.steps with
                   | some l => l.map (fun x => some x)
                   | none => List.replicate axs.length none
                 .ok (sts, ens, axs, stps)
             | _, _ => .error ConvError.keyError
           | none =>
             -- lines 316-322: parameters resolved eagerly from graph inputs
             match getIn node 1 with
             | .error e => .error e
             | .ok n1 =>
             match getIn node 2 with
             | .error e => .error e
             | .ok n2 =>
             match getIn node 3 with
             | .error e => .error e
             | .ok n3 =>
               match findV env n1, findV env n2, findV env n3 with
               | .ok w1, .ok w2, .ok w3 =>
                 match ensureNp w1, ensureNp w2, ensureNp w3 with
                 | .ok b1, .ok b2, .ok b3 =>
                   match toInt32 b1.data, toInt32 b2.data, toInt32 b3.data with
                   | .ok sts, .ok ens, .ok axs =>
                     -- the try muffles only the IndexError of node.input[4]
                     match ((if 5 ≤ node.input.length then
                              match getIn node 4 with
                              | .error e => .error e
                              | .ok n4 =>
                                match findV env n4 with
                                | .error e => .error e
                                | .ok w4 =>
                                  match ensureNp w4 with
                                  | .error e => .error e
                                  | .ok b4 =>
                                    match toInt32 b4.data with
                                    | .ok l => .ok (l.map (fun x => some x))
                                    | .error e => .error e
                            else
                              .ok (match params.steps with
                                   | some l => l.map (fun x => some x)
                                   | none => List.replicate axs.length (none : Option Int))) :
                         Except ConvError (List (Option Int))) with
                     | .ok stps => .ok (sts, ens, axs, stps)
                     | .error e => .error e
                   | .error e, _, _ => .error e
                   | _, .error e, _ => .error e
                   | _, _, .error e => .error e
                 | .error e, _, _ => .error e
                 | _, .error e, _ => .error e
                 | _, _, .error e => .error e
               | .error e, _, _ => .error e
               | _, .error e, _ => .error e
               | _, _, .error e => .error e) :
        Except ConvError (List Int × List Int × List Int × List (Option Int))) with
    | .error e => .error e
    | .ok (sts, ens, axs, stps) =>
      match getIn node 0 with
      | .error e => .error e
      | .ok in0 =>
        match findV env in0 with
        | .error e => .error e
        | .ok v0 =>
          -- lines 324-325
          let rank := v0.rank
          let axesPos := axs.map (fun a => if 0 ≤ a then a else Int.ofNat rank + a)
          match buildSliceSpec rank axesPos sts ens stps with
          | .error e => .error e
          | .ok spec =>
            match v0 with
            | .constant a =>
              if a.shape.length = 0 then .error .typeError
              else if a.shape.length = 1 && a.data.any (fun e => e.isNone) then
                -- lines 337-339: a 1-D shape array holding unresolved entries
                -- is sliced directly, with the triple left by the last loop
                -- iteration
                match spec.getLast? with
                | some tr =>
                  match sliceIndices (a.shape.getD 0 0) tr.start tr.stop tr.step with
                  | .ok sel =>
                      .ok (.constant ⟨[sel.length], sel.map (fun i => a.data.getD i none), a.obj⟩, [])
                  | .error e => .error e
                | none => .error .valueError
              else
                -- lines 341-345: materialize, apply the slicing primitive and
                -- extract the plain array back
                match (List.zip a.shape spec).mapM
                    (fun p => sliceIndices p.1 p.2.start p.2.stop p.2.step) with
                | .ok sels => .ok (.constant (npSliceArr a sels), [])
                | .error e => .error e
            | .symbolic t =>
              let outShape := List.zipWith (fun (d : Option Int) (tr : SliceTriple) =>
                  match d with
                  | some dl =>
                      match sliceIndices dl.toNat tr.start tr.stop tr.step with
                      | .ok sel => some (Int.ofNat sel.length)
                      | .error _ => none
                  | none => none) t.shape spec
              .ok (.symbolic ⟨outShape, .sliceE t.expr (spec.map (fun tr => tr.start))
                  (spec.map (fun tr => tr.stop)) (spec.map (fun tr => tr.step))⟩, [])

/-- Embeds `convert_squeeze` (lines 349-368).  NOTE: line 361 of the source
reads `assert AttributeError(...)`, asserting a freshly constructed (truthy)
exception instance — a no-op.  The input count is therefore never actually
checked, and the embedding faithfully performs no check. -/
def convert_squeeze_val (node : Node) (params : Params) (env : Env) (kerasName : String) :
    Except ConvError (Value × List String) :=
  match getIn node 0 with
  | .error e => .error e
  | .ok in0 =>
    match findV env in0 with
    | .error e => .error e
    | .ok v =>
      match (match params.axes with
             | some [] => (.error .indexError : Except ConvError (Option Int))
             | some (a :: _) => .ok (some a)
             | none => .ok none) with
      | .error e => .error e
      | .ok axis =>
        match tfSqueeze (ensureTf v) axis with
        | .ok t2 => .ok (.symbolic t2, [])
        | .error e => .error e

/-- Python truthiness of a numpy array (`if roi:`): an empty array is falsy,
a single entry array reads its entry, anything larger raises the ambiguity
error. -/
def npTruthy (a : NArr) : Except ConvError Bool :=
  match a.data with
  | [] => .ok false
  | [e] => .ok (!(e == some 0) && !(e == none))
  | _ => .error .valueError

/-- Embeds `convert_resize` (lines 371-408). -/
def convert_resize_val (node : Node) (params : Params) (env : Env) (kerasName : String) :
    Except ConvError (Value × List String) :=
  match getIn node 0 with
  | .error e => .error e
  | .ok in0 =>
  match findV env in0 with
  | .error e => .error e
  | .ok v0 =>
  match getIn node 1 with
  | .error e => .error e
  | .ok n1 =>
  match getIn node 2 with
  | .error e => .error e
  | .ok n2 =>
    match (if n1.length = 0 then (.ok none : Except ConvError (Option Value))
           else match findV env n1 with
                | .ok v => .ok (some v)
                | .error e => .error e) with
    | .error e => .error e
    | .ok roi =>
    match (if n2.length = 0 then (.ok none : Except ConvError (Option Value))
           else match findV env n2 with
                | .ok v => .ok (some v)
                | .error e => .error e) with
    | .error e => .error e
    | .ok scalesV =>
    match (if node.input.length = 4 then
             match getIn node 3 with
             | .error e => .error e
             | .ok n3 =>
               match findV env n3 with
               | .ok v => .ok (some v)
               | .error e => .error e
           else (.ok none : Except ConvError (Option Value))) with
    | .error e => .error e
    | .ok sizesV =>
      match (match roi with
             | none => (.ok false : Except ConvError Bool)
             | some (.constant a) => npTruthy a
             | some (.symbolic _) => .error .typeError) with
      | .error e => .error e
      | .ok roiTruthy =>
        if roiTruthy then .error .genericError
        else
          match params.mode with
          | none => .error .keyError
          | some m =>
            if !(m = "nearest" ∨ m = "cubic" ∨ m = "linear") then .error .genericError
            else
              match kerasPermuteT [2, 3, 1] (ensureTf v0) with
              | .error e => .error e
              | .ok cl =>
                match (match scalesV with
                       | none => (.ok [] : Except ConvError (List (Option Int)))
                       | some (.constant a) => .ok a.data
                       | some (.symbolic _) => .error .typeError) with
                | .error e => .error e
                | .ok scalesData =>
                  match (if 0 < scalesData.length then
                           match scalesData.getD 0 none, scalesData.getD 1 none with
                           | some s0, some s1 =>
                             if s0 ≠ 1 ∨ s1 ≠ 1 then (.error .genericError : Except ConvError (Int × Int))
                             else
                               match scalesData.getD 2 none, scalesData.getD 3 none,
                                     cl.shape.getD 1 none, cl.shape.getD 2 none with
                               | some s2, some s3, some h1, some w1 => .ok (s2 * h1, s3 * w1)
                               | _, _, _, _ => .error .typeError
                           | _, _ => .error .typeError
                         else
                           match sizesV with
                           | none => .error .typeError
                           | some (.symbolic _) => .error .typeError
                           | some (.constant a) =>
                             if !(eqOpt (a.data.getD 0 none) ((Value.tfShape v0).getD 0 none)) ∨
                                !(eqOpt (a.data.getD 1 none) ((Value.tfShape v0).getD 1 none)) then
                               .error .genericError
                             else
                               match a.data.getD 2 none, a.data.getD 3 none with
                               | some h, some w => .ok (h, w)
                               | _, _ => .error .typeError) with
                  | .error e => .error e
                  | .ok (h, w) =>
                    let resized : KTensor :=
                      ⟨[cl.shape.getD 0 none, some h, some w, cl.shape.getD 3 none],
                        .resizeE cl.expr h w m⟩
                    match kerasPermuteT [3, 1, 2] resized with
                    | .ok out => .ok (.symbolic out, [])
                    | .error e => .error e

/-- Embeds `convert_expand` (lines 411-428).  NOTE: line 423 of the source
reads `assert AttributeError(...)` — as in the squeeze lowering this is a
no-op and the two input requirement is never actually enforced. -/
def convert_expand_val (node : Node) (params : Params) (env : Env) (kerasName : String) :
    Except ConvError (Value × List String) :=
  match getIn node 0 with
  | .error e => .error e
  | .ok in0 =>
  match findV env in0 with
  | .error e => .error e
  | .ok v0 =>
  match getIn node 1 with
  | .error e => .error e
  | .ok in1 =>
  match findV env in1 with
  | .error e => .error e
  | .ok v1 =>
    match ensureNp v1 with
    | .error e => .error e
    | .ok a1 =>
      match toInt32 a1.data with
      | .error e => .error e
      | .ok dims =>
        if dims.any (fun d => decide (d < 0)) then .error .tfError
        else
          match broadcastShape (ensureTf v0).shape (dims.map (fun d => some d)) with
          | .ok s => .ok (.symbolic ⟨s, .mulOnesE (ensureTf v0).expr dims⟩, [])
          | .error e => .error e

/-- Embeds `convert_tile` (lines 431-432): a direct pass through to
`tf.tile`. -/
def convert_tile_val (node : Node) (params : Params) (env : Env) (kerasName : String) :
    Except ConvError (Value × List String) :=
  match getIn node 0 with
  | .error e => .error e
  | .ok in0 =>
  match findV env in0 with
  | .error e => .error e
  | .ok v0 =>
  match getIn node 1 with
  | .error e => .error e
  | .ok in1 =>
  match findV env in1 with
  | .error e => .error e
  | .ok v1 =>
    let t := ensureTf v0
    match v1 with
    | .constant a =>
        match toInt32 a.data with
        | .error e => .error e
        | .ok reps =>
          if (reps.length == t.shape.length) && reps.all (fun x => decide (0 ≤ x)) then
            .ok (.symbolic ⟨List.zipWith (fun (d : Option Int) (x : Int) =>
                d.map (fun dd => dd * x)) t.shape reps, .tileE t.expr (some reps)⟩, [])
          else .error .tfError
    | .symbolic _ =>
        .ok (.symbolic ⟨List.replicate t.shape.length none, .tileE t.expr none⟩, [])

/-- Run time semantics of `tf.reshape` on a concrete input: a single `-1`
entry absorbs the remaining element count; without one the counts must
agree. -/
def tfReshapeRun (total : Nat) (dims : List Int) : Option (List Nat) :=
  if (dims.filter (fun d => d == -1)).length == 1 then
    let p := (dims.filter (fun d => !(d == -1))).foldl (fun a d => a * d.toNat) 1
    if p ≠ 0 ∧ total % p = 0 then
      some (dims.map (fun d => if d == -1 then total / p else d.toNat))
    else none
  else if (dims.filter (fun d => d == -1)).length == 0 then
    if (dims.foldl (fun a d => a * d.toNat) 1) = total then some (dims.map (fun d => d.toNat))
    else none
  else none

/-- Run time output shape of the dynamic reshape node `dynReshapeE fm eim`
on an input of concrete shape `c`: the emitted target is
`[*shape[:fm], -1, *shape[eim:]]` read off the live shape tensor. -/
def dynReshapeRun (fm eim : Nat) (c : List Nat) : Option (List Nat) :=
  tfReshapeRun (natProd c)
    ((c.take fm).map (fun k => Int.ofNat k) ++ [-1] ++ (c.drop eim).map (fun k => Int.ofNat k))

/-! ### The Environment writing wrapper and the operator table -/

/-- Each source routine mutates the Environment only through
`layers[node_name] = value`; the embedding therefore wraps the computation
of that value with a single final insert. -/
def runLowering (f : Except ConvError (Value × List String)) (env : Env) (nodeName : String) :
    Except ConvError (Env × List String) :=
  match f with
  | .ok (v, w) => .ok (Env.insert env nodeName v, w)
  | .error e => .error e

/-- `convert_transpose(node, params, layers, lambda_func, node_name, keras_name)`. -/
def convert_transpose (node : Node) (params : Params) (env : Env) (nodeName kerasName : String) :
    Except ConvError (Env × List String) :=
  runLowering (convert_transpose_val node params env kerasName) env nodeName

/-- `convert_shape(...)`. -/
def convert_shape (node : Node) (params : Params) (env : Env) (nodeName kerasName : String) :
    Except ConvError (Env × List String) :=
  runLowering (convert_shape_val node params env kerasName) env nodeName

/-- `convert_gather(...)`. -/
def convert_gather (node : Node) (params : Params) (env : Env) (nodeName kerasName : String) :
    Except ConvError (Env × List String) :=
  runLowering (convert_gather_val node params env kerasName) env nodeName

/-- `convert_concat(...)`. -/
def convert_concat (node : Node) (params : Params) (env : Env) (nodeName kerasName : String) :
    Except ConvError (Env × List String) :=
  runLowering (convert_concat_val node params env kerasName) env nodeName

/-- `convert_reshape(...)`. -/
def convert_reshape (node : Node) (params : Params) (env : Env) (nodeName kerasName : String) :
    Except ConvError (Env × List String) :=
  runLowering (convert_reshape_val node params env kerasName) env nodeName

/-- `convert_unsqueeze(...)`. -/
def convert_unsqueeze (node : Node) (params : Params) (env : Env) (nodeName kerasName : String) :
    Except ConvError (Env × List String) :=
  runLowering (convert_unsqueeze_val node params env kerasName) env nodeName

/-- `convert_flatten(...)`. -/
def convert_flatten (node : Node) (params : Params) (env : Env) (nodeName kerasName : String) :
    Except ConvError (Env × List String) :=
  runLowering (convert_flatten_val node params env kerasName) env nodeName

/-- `convert_slice(...)`. -/
def convert_slice (node : Node) (params : Params) (env : Env) (nodeName kerasName : String) :
    Except ConvError (Env × List String) :=
  runLowering (convert_slice_val node params env kerasName) env nodeName

/-- `convert_squeeze(...)`. -/
def convert_squeeze (node : Node) (params : Params) (env : Env) (nodeName kerasName : String) :
    Except ConvError (Env × List String) :=
  runLowering (convert_squeeze_val node params env kerasName) env nodeName

/-- `convert_resize(...)`. -/
def convert_resize (node : Node) (params : Params) (env : Env) (nodeName kerasName : String) :
    Except ConvError (Env × List String) :=
  runLowering (convert_resize_val node params env kerasName) env nodeName

/-- `convert_expand(...)`. -/
def convert_expand (node : Node) (params : Params) (env : Env) (nodeName kerasName : String) :
    Except ConvError (Env × List String) :=
  runLowering (convert_expand_val node params env kerasName) env nodeName

/-- `convert_tile(...)`. -/
def convert_tile (node : Node) (params : Params) (env : Env) (nodeName kerasName : String) :
    Except ConvError (Env × List String) :=
  runLowering (convert_tile_val node params env kerasName) env nodeName

/-- The operator kinds covered by the lowering table of the module. -/
inductive OpKind where
  | transpose | shape | gather | concat | reshape | unsqueeze
  | flatten | slice | squeeze | resize | expand | tile
deriving Repr, DecidableEq

/-- The value computation of each lowering routine. -/
def convertVal : OpKind → Node → Params → Env → String → Except ConvError (Value × List String)
  | .transpose => convert_transpose_val
  | .shape => convert_shape_val
  | .gather => convert_gather_val
  | .concat => convert_concat_val
  | .reshape => convert_reshape_val
  | .unsqueeze => convert_unsqueeze_val
  | .flatten => convert_flatten_val
  | .slice => convert_slice_val
  | .squeeze => convert_squeeze_val
  | .resize => convert_resize_val
  | .expand => convert_expand_val
  | .tile => convert_tile_val

/-- The lowering table: dispatch to the routine of an operator kind. -/
def convertOp (op : OpKind) (node : Node) (params : Params) (env : Env)
    (nodeName kerasName : String) : Except ConvError (Env × List String) :=
  runLowering (convertVal op node params env kerasName) env nodeName

/-! ### General lemmas -/

theorem runLowering_ok {f : Except ConvError (Value × List String)} {env : Env}
    {n : String} {env' : Env} {w : List String}
    (h : runLowering f env n = .ok (env', w)) : ∃ v, env' = Env.insert env n v := by
  cases f with
  | ok vw =>
      obtain ⟨v, w2⟩ := vw
      simp [runLowering] at h
      exact ⟨v, h.1.symm⟩
  | error e => simp [runLowering] at h

/-! ### Concrete scenarios referenced by the claims -/

/-- C1 scenario Environment: a graph bound source tensor of static shape
(None, 3, 4, 4) and a compile time target shape array (None, -1). -/
def envResh : Env :=
  [("x", .symbolic ⟨[none, some 3, some 4, some 4], .source "x"⟩),
   ("s", .constant ⟨[2], [none, some (-1)], true⟩)]

/-- Gather scenario Environment: a constant 2 by 2 data array and a constant
index array `[0]`. -/
def envGath : Env :=
  [("d", .constant ⟨[2, 2], [some 0, some 1, some 2, some 3], false⟩),
   ("i", .constant ⟨[1], [some 0], false⟩)]

/-- Slice scenario Environment: a constant axis of length 10 holding the
values 0 through 9. -/
def envSlice : Env :=
  [("d", .constant ⟨[10], (List.range 10).map (fun i => some (Int.ofNat i)), false⟩)]

/-- Squeeze scenario Environment: a symbolic tensor of static shape (1, 5). -/
def envSq : Env := [("x", .symbolic ⟨[some 1, some 5], .source "x"⟩)]

/-! ### The claims -/

/-- C1 (the claim as frozen is falsified at this input): with layout
reordering disabled, a symbolic source of shape (None, 3, 4, 4) and the
compile time target (None, -1), the branch that fires is NOT the flatten
degenerate one (lines 223-226, which would emit a Keras `Flatten` node): the
comparison of lines 209-211 puts the first mismatch at index 1, where the
target holds the wildcard, so the dynamic mid axes reshape branch of lines
212-217 fires and emits a `tf.reshape` node instead. -/
theorem claim_C1_counterexample :
    convert_reshape ⟨["x", "s"]⟩ emptyParams envResh "y" "y" =
      .ok (Env.insert envResh "y"
        (.symbolic ⟨[none, none], .dynReshapeE 1 5 (.source "x")⟩), []) ∧
    KExpr.isFlattenB (.dynReshapeE 1 5 (.source "x")) = false :=
  ⟨rfl, rfl⟩

/-- C1 (amended): with layout reordering disabled, a symbolic source of
shape (None, 3, 4, 4) and the compile time target (None, -1), the dynamic
mid axes reshape branch of the reshape lowering fires (not the flatten
degenerate branch), and the emitted node is 2 dimensional — statically of
rank 2, and with second dimension 3*4*4 = 48 at run time when the batch
dimension is concretely 1. -/
theorem claim_C1 :
    convert_reshape ⟨["x", "s"]⟩ emptyParams envResh "y" "y" =
      .ok (Env.insert envResh "y"
        (.symbolic ⟨[none, none], .dynReshapeE 1 5 (.source "x")⟩), []) ∧
    ([none, none] : List (Option Int)).length = 2 ∧
    dynReshapeRun 1 5 [1, 3, 4, 4] = some [1, 48] ∧
    3 * 4 * 4 = 48 :=
  ⟨rfl, rfl, rfl, rfl⟩

/-- C3 (code bug): on the constant fold path the gather lowering is supposed
to index the data operand along the requested axis; at axis 0 it does (second
conjunct), but at axis 1 (and 2, 3) lines 84-88 subscript the Environment
dict itself with a tuple holding a slice (`layers[:, node.input[0]]`), which
raises `TypeError: unhashable type` instead of producing the gathered
array. -/
theorem claim_C3_bug :
    convert_gather ⟨["d", "i"]⟩ ⟨none, some 1, none, none, none, none, false, false, none⟩
      envGath "g" "g" = .error .typeError ∧
    convert_gather ⟨["d", "i"]⟩ ⟨none, some 0, none, none, none, none, false, false, none⟩
      envGath "g" "g" =
      .ok (Env.insert envGath "g" (.constant ⟨[1, 2], [some 0, some 1], false⟩), []) :=
  ⟨rfl, rfl⟩

/-- C2 counterexample: a gather node whose params carry the embedding flag
and axis 4, with both operands compile time arrays, raises no configuration
error — the axis bound of line 90 is only ever checked on the constant fold
path — and an Environment entry IS written for the node. -/
theorem claim_C2_counterexample :
    convert_gather ⟨["d", "i"]⟩ ⟨none, some 4, none, none, none, none, false, true, none⟩
      envGath "g" "g" =
      .ok (Env.insert envGath "g" (.symbolic ⟨[some 1, some 2],
        .embeddingE ⟨[2, 2], [some 0, some 1, some 2, some 3], false⟩ none [some 0]⟩), []) ∧
    (Env.find (Env.insert envGath "g" (.symbolic ⟨[some 1, some 2],
        .embeddingE ⟨[2, 2], [some 0, some 1, some 2, some 3], false⟩ none [some 0]⟩)) "g").isSome
      = true :=
  ⟨rfl, rfl⟩

/-- C2 (amended): the axis bound is enforced on the constant fold path only:
for a gather node whose data and index operands are both compile time arrays
and which is not flagged as an embedding lookup, an axis of 4 or greater
raises the configuration error, and no Environment entry is written (an
error return carries no updated Environment). -/
theorem claim_C2 (node : Node) (params : Params) (env : Env) (nodeName kerasName a b : String)
    (a0 a1 : NArr) (ax : Int)
    (h0 : node.input.get? 0 = some a) (h1 : node.input.get? 1 = some b)
    (hv0 : Env.find env a = some (.constant a0)) (hv1 : Env.find env b = some (.constant a1))
    (hax : params.axis = some ax) (hemb : params.is_embedding = false)
    (h4 : 4 ≤ ax) :
    convert_gather node params env nodeName kerasName = .error .attributeError := by
  simp only [convert_gather, runLowering, convert_gather_val, getIn, findV, h0, h1, hv0, hv1,
    hax, hemb, is_numpy, Bool.not_false, Bool.and_self, Bool.and_true, if_true]
  rw [if_neg (by omega : ¬ ax = 0), if_neg (by omega : ¬ (ax = 1 ∨ ax = 2 ∨ ax = 3))]

/-- Witness for C2 at a concrete constant gather with axis 4. -/
theorem claim_C2_witness :
    convert_gather ⟨["d", "i"]⟩ ⟨none, some 4, none, none, none, none, false, false, none⟩
      envGath "g" "g" = .error .attributeError :=
  claim_C2 ⟨["d", "i"]⟩ ⟨none, some 4, none, none, none, none, false, false, none⟩
    envGath "g" "g" "d" "i" ⟨[2, 2], [some 0, some 1, some 2, some 3], false⟩
    ⟨[1], [some 0], false⟩ 4 rfl rfl rfl rfl rfl rfl (by decide)

/-- C4: the reshape lowering raises the configuration error whenever the
target shape operand is graph bound (not a compile time array), before any
Environment write (line 234 is reached without any `layers[node_name]`
assignment, and an error return carries no updated Environment). -/
theorem claim_C4 (node : Node) (params : Params) (env : Env) (nodeName kerasName a b : String)
    (v0 : Value) (t : KTensor)
    (h0 : node.input.get? 0 = some a) (h1 : node.input.get? 1 = some b)
    (hv0 : Env.find env a = some v0) (hv1 : Env.find env b = some (.symbolic t)) :
    convert_reshape node params env nodeName kerasName = .error .attributeError := by
  simp only [convert_reshape, runLowering, convert_reshape_val, getIn, findV, h0, h1, hv0, hv1]

/-- Witness for C4: a reshape whose target shape operand is symbolic. -/
theorem claim_C4_witness :
    convert_reshape ⟨["x", "t"]⟩ emptyParams
      [("x", .symbolic ⟨[some 1, some 2], .source "x"⟩),
       ("t", .symbolic ⟨[some 2], .source "t"⟩)] "y" "y" = .error .attributeError :=
  claim_C4 ⟨["x", "t"]⟩ emptyParams
    [("x", .symbolic ⟨[some 1, some 2], .source "x"⟩),
     ("t", .symbolic ⟨[some 2], .source "t"⟩)] "y" "y" "x" "t"
    (.symbolic ⟨[some 1, some 2], .source "x"⟩) ⟨[some 2], .source "t"⟩ rfl rfl rfl rfl

/-- C7 (code bug): a squeeze node with two inputs does not raise — line 361
reads `assert AttributeError(...)`, which asserts a truthy freshly built
exception instance and is a no-op — so the lowering proceeds, squeezes the
first input and writes an Environment entry for the node, against the claim
and the specification. -/
theorem claim_C7_bug :
    convert_squeeze ⟨["x", "y"]⟩ ⟨none, none, some [0], none, none, none, false, false, none⟩
      envSq "z" "z" =
      .ok (Env.insert envSq "z" (.symbolic ⟨[some 5], .squeezeE (.source "x") (some 0)⟩), []) ∧
    (Env.find (Env.insert envSq "z"
        (.symbolic ⟨[some 5], .squeezeE (.source "x") (some 0)⟩)) "z").isSome = true :=
  ⟨rfl, rfl⟩

/-- C8: every routine of the lowering table treats the Environment as append
only: when it completes normally on a fresh node identifier, every key
present before the call is still present and maps to the same Value, and any
key whose binding changed is the routine's own node identifier. -/
theorem claim_C8 (op : OpKind) (node : Node) (params : Params) (env : Env)
    (nodeName kerasName : String) (env' : Env) (w : List String)
    (hfresh : Env.find env nodeName = none)
    (h : convertOp op node params env nodeName kerasName = .ok (env', w)) :
    (∀ k v, Env.find env k = some v → Env.find env' k = some v) ∧
    (∀ k, Env.find env' k ≠ Env.find env k → k = nodeName) := by
  have h2 : runLowering (convertVal op node params env kerasName) env nodeName =
      .ok (env', w) := h
  obtain ⟨v, rfl⟩ := runLowering_ok h2
  constructor
  · intro k u hk
    rw [Env.find_insert]
    split
    next heq => rw [heq, hfresh] at hk; cases hk
    next => exact hk
  · intro k hk
    by_contra hne
    exact hk (by rw [Env.find_insert, if_neg hne])

/-- Witness for C8: the shape lowering on a one entry Environment keeps the
existing entry intact. -/
theorem claim_C8_witness :
    Env.find (Env.insert [("a", .constant ⟨[1], [some 5], false⟩)] "b"
      (.constant (npArrayOf [some 1]))) "a" = some (.constant ⟨[1], [some 5], false⟩) :=
  (claim_C8 .shape ⟨["a"]⟩ emptyParams [("a", .constant ⟨[1], [some 5], false⟩)] "b" "b"
    (Env.insert [("a", .constant ⟨[1], [some 5], false⟩)] "b" (.constant (npArrayOf [some 1])))
    [] rfl rfl).1 "a" _ rfl

/-- C9: the shape lowering always constant folds: for every input Value it
writes a compile time array whose entry at each position is the static
dimension of the materialized input there (`None` at each statically unknown
position, by definition of `Value.tfShape`), and never a graph node. -/
theorem claim_C9 (node : Node) (params : Params) (env : Env) (nodeName kerasName a : String)
    (v : Value)
    (h0 : node.input.get? 0 = some a) (hv : Env.find env a = some v) :
    convert_shape node params env nodeName kerasName =
      .ok (Env.insert env nodeName (.constant (npArrayOf (Value.tfShape v))), []) := by
  simp only [convert_shape, runLowering, convert_shape_val, getIn, findV, h0, hv, Value.tfShape]

/-- Witness for C9 at a symbolic input of shape (None, 3, 4, 4): the written
array holds `None` at the unknown position and the known dimensions
elsewhere. -/
theorem claim_C9_witness :
    convert_shape ⟨["x"]⟩ emptyParams envResh "s2" "s2" =
      .ok (Env.insert envResh "s2"
        (.constant (npArrayOf (Value.tfShape
          (.symbolic ⟨[none, some 3, some 4, some 4], .source "x"⟩)))), []) :=
  claim_C9 ⟨["x"]⟩ emptyParams envResh "s2" "s2" "x"
    (.symbolic ⟨[none, some 3, some 4, some 4], .source "x"⟩) rfl rfl

theorem ensureTf_rank (v : Value) : (ensureTf v).shape.length = Value.rank v := by
  cases v <;> simp [ensureTf, Value.rank]

theorem permOK_true {perm : List Nat} {r : Nat} (hlen : perm.length = r)
    (hbound : ∀ j ∈ perm, j < r) (hcover : ∀ j < r, j ∈ perm) :
    permOK perm r = true := by
  simp only [permOK, Bool.and_eq_true, beq_iff_eq, List.all_eq_true, List.any_eq_true,
    decide_eq_true_eq, List.mem_range]
  exact ⟨⟨hlen, hbound⟩, fun j hj => ⟨j, hcover j hj, rfl⟩⟩

theorem kerasPermDimsOK_tail {rest : List Nat} {r : Nat}
    (hlen : rest.length + 1 = r)
    (hbound : ∀ j ∈ (0 :: rest : List Nat), j < r)
    (hcover : ∀ j < r, j ∈ (0 :: rest : List Nat))
    (hnodup : (0 :: rest : List Nat).Nodup) :
    kerasPermDimsOK rest r = true := by
  simp only [kerasPermDimsOK, Bool.and_eq_true, beq_iff_eq, List.all_eq_true, List.any_eq_true,
    Bool.or_eq_true, decide_eq_true_eq, List.mem_range]
  have h0 : (0 : Nat) ∉ rest := (List.nodup_cons.mp hnodup).1
  refine ⟨⟨hlen, ?_⟩, ?_⟩
  · intro j hj
    have hjr := hbound j (List.mem_cons_of_mem _ hj)
    have hne : j ≠ 0 := fun h => h0 (h ▸ hj)
    exact ⟨by omega, hjr⟩
  · intro j hjr
    rcases List.mem_cons.mp (hcover j hjr) with h | h
    · exact Or.inl h
    · exact Or.inr ⟨j, h, rfl⟩

/-- C5: a transpose whose (valid) permutation keeps axis 0 lowers to the
semantic axis permutation node over the remaining axes; one that moves axis
0 does not fail: it surfaces the warning and proceeds, constant folding with
the host side `np.transpose` on a compile time array and emitting the raw
all axis `tf.transpose` node otherwise. -/
theorem claim_C5 (node : Node) (params : Params) (env : Env) (nodeName kerasName a : String)
    (v : Value) (p0 : Nat) (rest : List Nat)
    (h0 : node.input.get? 0 = some a) (hv : Env.find env a = some v)
    (hperm : params.perm = some (p0 :: rest))
    (hlen : (p0 :: rest : List Nat).length = Value.rank v)
    (hbound : ∀ j ∈ (p0 :: rest : List Nat), j < Value.rank v)
    (hcover : ∀ j < Value.rank v, j ∈ (p0 :: rest : List Nat))
    (hnodup : (p0 :: rest : List Nat).Nodup) :
    (p0 = 0 →
      convert_transpose node params env nodeName kerasName =
        .ok (Env.insert env nodeName (.symbolic
          ⟨(ensureTf v).shape.headD none :: rest.map (fun j => (ensureTf v).shape.getD j none),
            .permute rest (ensureTf v).expr⟩), [])) ∧
    (p0 ≠ 0 → ∀ arr, v = .constant arr →
      convert_transpose node params env nodeName kerasName =
        .ok (Env.insert env nodeName
          (.constant (npTransposeArr (p0 :: rest) arr)), [wPermBatch, wNumpyTranspose])) ∧
    (p0 ≠ 0 → ∀ t, v = .symbolic t →
      convert_transpose node params env nodeName kerasName =
        .ok (Env.insert env nodeName (.symbolic
          ⟨(p0 :: rest).map (fun j => t.shape.getD j none), .tfTransposeE (p0 :: rest) t.expr⟩),
          [wPermBatch])) := by
  refine ⟨?_, ?_, ?_⟩
  · intro hp0
    subst hp0
    have hk : kerasPermDimsOK rest (ensureTf v).shape.length = true := by
      rw [ensureTf_rank]
      exact kerasPermDimsOK_tail (by simpa using hlen) hbound hcover hnodup
    simp only [convert_transpose, runLowering, convert_transpose_val, getIn, findV, h0, hv, hperm]
    rw [if_neg (by simp : ¬ ((0 : Nat) ≠ 0))]
    simp [kerasPermuteT, hk]
  · intro hp0 arr harr
    subst harr
    have hcheck : permOK (p0 :: rest) arr.shape.length = true :=
      permOK_true (by simpa [Value.rank] using hlen) (by simpa [Value.rank] using hbound)
        (by simpa [Value.rank] using hcover)
    simp only [convert_transpose, runLowering, convert_transpose_val, getIn, findV, h0, hv, hperm]
    rw [if_pos hp0]
    simp [npTranspose, hcheck]
  · intro hp0 t ht
    subst ht
    have hcheck : permOK (p0 :: rest) t.shape.length = true :=
      permOK_true (by simpa [Value.rank] using hlen) (by simpa [Value.rank] using hbound)
        (by simpa [Value.rank] using hcover)
    simp only [convert_transpose, runLowering, convert_transpose_val, getIn, findV, h0, hv, hperm]
    rw [if_pos hp0]
    simp [tfTransposeT, hcheck]

/-- Witness for C5: the three cases at concrete inputs — a batch fixing
permutation on a symbolic rank 3 tensor, and a batch moving permutation on a
constant and on a symbolic rank 2 value. -/
theorem claim_C5_witness :
    (convert_transpose ⟨["x"]⟩ ⟨some [0, 2, 1], none, none, none, none, none, false, false, none⟩
      [("x", .symbolic ⟨[none, some 2, some 3], .source "x"⟩)] "t" "t" =
      .ok (Env.insert [("x", .symbolic ⟨[none, some 2, some 3], .source "x"⟩)] "t"
        (.symbolic ⟨[none, some 3, some 2], .permute [2, 1] (.source "x")⟩), [])) ∧
    (convert_transpose ⟨["c"]⟩ ⟨some [1, 0], none, none, none, none, none, false, false, none⟩
      [("c", .constant ⟨[2, 2], [some 1, some 2, some 3, some 4], false⟩)] "t" "t" =
      .ok (Env.insert [("c", .constant ⟨[2, 2], [some 1, some 2, some 3, some 4], false⟩)] "t"
        (.constant (npTransposeArr [1, 0] ⟨[2, 2], [some 1, some 2, some 3, some 4], false⟩)),
        [wPermBatch, wNumpyTranspose])) ∧
    (convert_transpose ⟨["y"]⟩ ⟨some [1, 0], none, none, none, none, none, false, false, none⟩
      [("y", .symbolic ⟨[some 2, some 3], .source "y"⟩)] "t" "t" =
      .ok (Env.insert [("y", .symbolic ⟨[some 2, some 3], .source "y"⟩)] "t"
        (.symbolic ⟨[some 3, some 2], .tfTransposeE [1, 0] (.source "y")⟩), [wPermBatch])) := by
  refine ⟨?_, ?_, ?_⟩
  · exact (claim_C5 ⟨["x"]⟩ ⟨some [0, 2, 1], none, none, none, none, none, false, false, none⟩
      [("x", .symbolic ⟨[none, some 2, some 3], .source "x"⟩)] "t" "t" "x"
      (.symbolic ⟨[none, some 2, some 3], .source "x"⟩) 0 [2, 1] rfl rfl rfl (by decide)
      (by decide) (by decide) (by decide)).1 rfl
  · exact (claim_C5 ⟨["c"]⟩ ⟨some [1, 0], none, none, none, none, none, false, false, none⟩
      [("c", .constant ⟨[2, 2], [some 1, some 2, some 3, some 4], false⟩)] "t" "t" "c"
      (.constant ⟨[2, 2], [some 1, some 2, some 3, some 4], false⟩) 1 [0] rfl rfl rfl
      (by decide) (by decide) (by decide) (by decide)).2.1 (by decide) _ rfl
  · exact (claim_C5 ⟨["y"]⟩ ⟨some [1, 0], none, none, none, none, none, false, false, none⟩
      [("y", .symbolic ⟨[some 2, some 3], .source "y"⟩)] "t" "t" "y"
      (.symbolic ⟨[some 2, some 3], .source "y"⟩) 1 [0] rfl rfl rfl
      (by decide) (by decide) (by decide) (by decide)).2.2 (by decide) _ rfl

/-- C6: in the slice lowering, every axis named in the slice spec whose end
value is at or above the sentinel 2147483647 receives an open ended stop
(first conjunct, about the per axis spec builder the lowering uses); in
particular slicing an axis of length 10 with starts=[2] and
ends=[2147483647] selects exactly the elements at positions 2 through 9
(second conjunct). -/
theorem claim_C6 :
    (∀ (axesPos : List Int) (starts ends : List Int) (steps : List (Option Int))
       (axis : Nat) (tr : SliceTriple),
       Int.ofNat axis ∈ axesPos →
       sliceSpecAt axesPos starts ends steps axis = .ok tr →
       2147483647 ≤ ends.getD (axesPos.findIdx (fun x => x == Int.ofNat axis)) 0 →
       tr.stop = none) ∧
    convert_slice ⟨["d"]⟩
      ⟨none, none, some [0], none, some [2], some [2147483647], false, false, none⟩
      envSlice "o" "o" =
      .ok (Env.insert envSlice "o"
        (.constant ⟨[8], [some 2, some 3, some 4, some 5, some 6, some 7, some 8, some 9],
          false⟩), []) := by
  constructor
  · intro axesPos starts ends steps axis tr hmem hok hbig
    have hany : axesPos.any (fun x => x == Int.ofNat axis) = true := by
      simp only [List.any_eq_true, beq_iff_eq]
      exact ⟨_, hmem, rfl⟩
    unfold sliceSpecAt at hok
    rw [if_pos hany] at hok
    split at hok
    next st en sp hst hen hsp =>
      have : tr = ⟨some st, if en < 2147483647 then some en else none, sp⟩ := by
        injection hok with h
        exact h.symm
      subst this
      have hen' : ends.getD (axesPos.findIdx (fun x => x == Int.ofNat axis)) 0 = en := by
        rw [List.getD_eq_getElem?_getD, ← List.get?_eq_getElem?, hen]
        rfl
      rw [hen'] at hbig
      simp only
      rw [if_neg (by omega)]
    next => cases hok
  · rfl

/-- Witness for C6: the per axis spec builder at axis 0 with a sentinel end
value produces an open ended stop. -/
theorem claim_C6_witness : SliceTriple.stop ⟨some 2, none, none⟩ = none :=
  claim_C6.1 [0] [2] [2147483647] [none] 0 ⟨some 2, none, none⟩ (by decide) rfl (by decide)

/-- C10: with exactly two inputs the unsqueeze axes are read from the
Environment value of the second input, overriding any static axes attribute
(the lowering behaves exactly as the one input form whose attribute holds
those axes); with three or more inputs the configuration error is raised
before any Environment entry is written (an error return carries no updated
Environment). -/
theorem claim_C10 :
    (∀ (params : Params) (env : Env) (nodeName kerasName a b : String) (arr : NArr)
       (l : List Int),
       Env.find env b = some (.constant arr) →
       arrToAxes arr = .ok l →
       convert_unsqueeze ⟨[a, b]⟩ params env nodeName kerasName =
         convert_unsqueeze ⟨[a]⟩
           ⟨params.perm, params.axis, some l, params.steps, params.starts, params.endsP,
             params.change_ordering, params.is_embedding, params.mode⟩ env nodeName kerasName) ∧
    (∀ (node : Node) (params : Params) (env : Env) (nodeName kerasName : String),
       3 ≤ node.input.length →
       convert_unsqueeze node params env nodeName kerasName = .error .attributeError) := by
  constructor
  · intro params env nodeName kerasName a b arr l hb hl
    simp [convert_unsqueeze, runLowering, convert_unsqueeze_val, getIn, findV, hb, hl]
  · intro node params env nodeName kerasName h3
    simp only [convert_unsqueeze, runLowering, convert_unsqueeze_val]
    rw [if_pos (by omega : node.input.length ≠ 1), if_neg (by omega : ¬ node.input.length = 2)]

/-- Witness for C10: the override at a concrete two input node (the static
attribute `[1]` is ignored in favor of the Environment axes `[0]`), and the
arity error at a three input node. -/
theorem claim_C10_witness :
    (convert_unsqueeze ⟨["x", "ax"]⟩ ⟨none, none, some [1], none, none, none, false, false, none⟩
      [("x", .symbolic ⟨[some 1, some 5], .source "x"⟩),
       ("ax", .constant ⟨[1], [some 0], false⟩)] "u" "u" =
      convert_unsqueeze ⟨["x"]⟩ ⟨none, none, some [0], none, none, none, false, false, none⟩
        [("x", .symbolic ⟨[some 1, some 5], .source "x"⟩),
         ("ax", .constant ⟨[1], [some 0], false⟩)] "u" "u") ∧
    (convert_unsqueeze ⟨["x", "ax", "z"]⟩
      ⟨none, none, some [1], none, none, none, false, false, none⟩
      [("x", .symbolic ⟨[some 1, some 5], .source "x"⟩),
       ("ax", .constant ⟨[1], [some 0], false⟩)] "u" "u" = .error .attributeError) :=
  ⟨claim_C10.1 ⟨none, none, some [1], none, none, none, false, false, none⟩
      [("x", .symbolic ⟨[some 1, some 5], .source "x"⟩),
       ("ax", .constant ⟨[1], [some 0], false⟩)] "u" "u" "x" "ax"
      ⟨[1], [some 0], false⟩ [0] rfl rfl,
   claim_C10.2 ⟨["x", "ax", "z"]⟩ ⟨none, none, some [1], none, none, none, false, false, none⟩
      [("x", .symbolic ⟨[some 1, some 5], .source "x"⟩),
       ("ax", .constant ⟨[1], [some 0], false⟩)] "u" "u" (by decide)⟩

end O2K

